import Mathlib

/-!
Verification of the rain-prediction pipeline in app.py.

The embedding models dates as a calendar record (proleptic Gregorian),
numeric weather values as rationals, and missing values (NaN) as none.
The pre-fit model artifacts (scaler, classifier) are external opaque
objects; they are modelled as abstract functions returning Except, so
that any exception raised during scaling or prediction is represented
as an error value.
-/

/-- Gregorian leap-year test, as used by the calendar the code relies on. -/
def isLeapYear (y : ℕ) : Bool := y % 4 == 0 && (y % 100 != 0 || y % 400 == 0)

/-- Number of days of month m (1..12) of year y; 0 for out-of-range months. -/
def daysInMonth (y : ℕ) (m : ℕ) : ℕ :=
  match m with
  | 1 => 31
  | 2 => if isLeapYear y then 29 else 28
  | 3 => 31
  | 4 => 30
  | 5 => 31
  | 6 => 30
  | 7 => 31
  | 8 => 31
  | 9 => 30
  | 10 => 31
  | 11 => 30
  | 12 => 31
  | _ => 0

/-- A calendar date, year-month-day. -/
structure Fecha where
  year : ℕ
  month : ℕ
  day : ℕ
deriving DecidableEq, Repr

/-- A real calendar date of the proleptic Gregorian calendar. -/
def validFecha (d : Fecha) : Prop :=
  1 ≤ d.year ∧ 1 ≤ d.month ∧ d.month ≤ 12 ∧ 1 ≤ d.day ∧ d.day ≤ daysInMonth d.year d.month

instance (d : Fecha) : Decidable (validFecha d) := by
  unfold validFecha; infer_instance

/-- The calendar day following d. -/
def nextDay (d : Fecha) : Fecha :=
  if d.day < daysInMonth d.year d.month then ⟨d.year, d.month, d.day + 1⟩
  else if d.month < 12 then ⟨d.year, d.month + 1, 1⟩
  else ⟨d.year + 1, 1, 1⟩

/-- Days of year y that lie strictly before month m. -/
def daysBeforeMonth (y : ℕ) : ℕ → ℕ
  | 0 => 0
  | 1 => 0
  | m + 2 => daysBeforeMonth y (m + 1) + daysInMonth y (m + 1)

/-- Length of year y in days. -/
def daysInYear (y : ℕ) : ℕ := if isLeapYear y then 366 else 365

/-- Days strictly before January 1 of year y, counting from year 1. -/
def daysBeforeYear (y : ℕ) : ℕ :=
  365 * (y - 1) + ((y - 1) / 4 + (y - 1) / 400 - (y - 1) / 100)

/-- Rata-die style ordinal of a date: day 1 is January 1 of year 1. -/
def toRD (d : Fecha) : ℕ := daysBeforeYear d.year + daysBeforeMonth d.year d.month + d.day

lemma daysBeforeMonth_succ (y m : ℕ) (hm : 1 ≤ m) :
    daysBeforeMonth y (m + 1) = daysBeforeMonth y m + daysInMonth y m := by
  match m, hm with
  | m + 1, _ => rfl

lemma daysInMonth_pos (y m : ℕ) (h1 : 1 ≤ m) (h2 : m ≤ 12) : 1 ≤ daysInMonth y m := by
  interval_cases m
  all_goals simp [daysInMonth]
  all_goals split <;> norm_num

lemma daysBeforeMonth_13 (y : ℕ) : daysBeforeMonth y 13 = daysInYear y := by
  cases h : isLeapYear y <;>
    simp [daysBeforeMonth, daysInMonth, daysInYear, h]

lemma daysBeforeYear_succ (y : ℕ) (hy : 1 ≤ y) :
    daysBeforeYear (y + 1) = daysBeforeYear y + daysInYear y := by
  unfold daysBeforeYear daysInYear
  split_ifs with hleap
  · have hm : y % 4 = 0 ∧ (¬ y % 100 = 0 ∨ y % 400 = 0) := by
      simpa [isLeapYear] using hleap
    omega
  · have hm : ¬ (y % 4 = 0 ∧ (¬ y % 100 = 0 ∨ y % 400 = 0)) := by
      simpa [isLeapYear] using hleap
    omega

lemma nextDay_valid (d : Fecha) (h : validFecha d) : validFecha (nextDay d) := by
  obtain ⟨hy, hm1, hm2, hd1, hd2⟩ := h
  unfold nextDay validFecha
  split_ifs with h1 h2 <;> dsimp only
  · exact ⟨hy, hm1, hm2, by omega, by omega⟩
  · exact ⟨hy, by omega, by omega, le_refl 1, daysInMonth_pos _ _ (by omega) (by omega)⟩
  · refine ⟨by omega, by norm_num, by norm_num, le_refl 1, ?_⟩
    simp [daysInMonth]

lemma toRD_nextDay (d : Fecha) (h : validFecha d) : toRD (nextDay d) = toRD d + 1 := by
  obtain ⟨hy, hm1, hm2, hd1, hd2⟩ := h
  unfold nextDay
  split_ifs with h1 h2
  · simp only [toRD]
    omega
  · have hstep := daysBeforeMonth_succ d.year d.month hm1
    simp only [toRD]
    omega
  · have hm : d.month = 12 := by omega
    have h13 : daysBeforeMonth d.year 13 = daysInYear d.year := daysBeforeMonth_13 _
    have hstep : daysBeforeMonth d.year 13 =
        daysBeforeMonth d.year 12 + daysInMonth d.year 12 :=
      daysBeforeMonth_succ _ 12 (by norm_num)
    have hybump := daysBeforeYear_succ d.year hy
    simp only [toRD, daysBeforeMonth]
    rw [hm] at hd2 h1 ⊢
    omega

lemma daysBeforeMonth_le_succ (y m : ℕ) : daysBeforeMonth y m ≤ daysBeforeMonth y (m + 1) := by
  match m with
  | 0 => simp [daysBeforeMonth]
  | 1 => simp [daysBeforeMonth]
  | m + 2 =>
    show daysBeforeMonth y (m + 2) ≤ daysBeforeMonth y (m + 2) + daysInMonth y (m + 2)
    omega

lemma daysBeforeMonth_mono (y : ℕ) {m1 m2 : ℕ} (h : m1 ≤ m2) :
    daysBeforeMonth y m1 ≤ daysBeforeMonth y m2 := by
  induction m2 with
  | zero => simp_all
  | succ n ih =>
    rcases Nat.lt_or_ge m1 (n + 1) with hlt | hge
    · exact le_trans (ih (by omega)) (daysBeforeMonth_le_succ y n)
    · have : m1 = n + 1 := by omega
      subst this
      exact le_refl _

lemma daysBeforeYear_mono {a b : ℕ} (ha : 1 ≤ a) (h : a ≤ b) :
    daysBeforeYear a ≤ daysBeforeYear b := by
  induction b with
  | zero => omega
  | succ n ih =>
    rcases Nat.lt_or_ge a (n + 1) with hlt | hge
    · have hn : 1 ≤ n := by omega
      have := daysBeforeYear_succ n hn
      have := ih (by omega)
      omega
    · have : a = n + 1 := by omega
      subst this
      exact le_refl _

lemma toRD_le_yearEnd (d : Fecha) (h : validFecha d) :
    toRD d ≤ daysBeforeYear (d.year + 1) := by
  obtain ⟨hy, hm1, hm2, hd1, hd2⟩ := h
  have hstep := daysBeforeMonth_succ d.year d.month hm1
  have hmono : daysBeforeMonth d.year (d.month + 1) ≤ daysBeforeMonth d.year 13 :=
    daysBeforeMonth_mono _ (by omega)
  have h13 : daysBeforeMonth d.year 13 = daysInYear d.year := daysBeforeMonth_13 _
  have hybump := daysBeforeYear_succ d.year hy
  simp only [toRD]
  omega

lemma toRD_lt_of_lex (d1 d2 : Fecha) (h1 : validFecha d1) (h2 : validFecha d2)
    (hlt : d1.year < d2.year ∨ (d1.year = d2.year ∧ (d1.month < d2.month ∨
      (d1.month = d2.month ∧ d1.day < d2.day)))) : toRD d1 < toRD d2 := by
  obtain ⟨hy1, hm11, hm12, hd11, hd12⟩ := h1
  obtain ⟨hy2, hm21, hm22, hd21, hd22⟩ := h2
  rcases hlt with hy | ⟨hyeq, hm | ⟨hmeq, hd⟩⟩
  · have hend := toRD_le_yearEnd d1 ⟨hy1, hm11, hm12, hd11, hd12⟩
    have hmono : daysBeforeYear (d1.year + 1) ≤ daysBeforeYear d2.year :=
      daysBeforeYear_mono (by omega) (by omega)
    simp only [toRD] at hend ⊢
    omega
  · have hstep := daysBeforeMonth_succ d1.year d1.month hm11
    have hmono : daysBeforeMonth d1.year (d1.month + 1) ≤ daysBeforeMonth d1.year d2.month :=
      daysBeforeMonth_mono _ (by omega)
    simp only [toRD]
    rw [hyeq] at hstep hmono hd12 ⊢
    omega
  · simp only [toRD]
    rw [hyeq, hmeq]
    omega

lemma toRD_inj (d1 d2 : Fecha) (h1 : validFecha d1) (h2 : validFecha d2)
    (he : toRD d1 = toRD d2) : d1 = d2 := by
  by_contra hne
  rcases Nat.lt_trichotomy d1.year d2.year with hy | hy | hy
  · exact absurd he (Nat.ne_of_lt (toRD_lt_of_lex d1 d2 h1 h2 (Or.inl hy)))
  · rcases Nat.lt_trichotomy d1.month d2.month with hm | hm | hm
    · exact absurd he (Nat.ne_of_lt (toRD_lt_of_lex d1 d2 h1 h2 (Or.inr ⟨hy, Or.inl hm⟩)))
    · rcases Nat.lt_trichotomy d1.day d2.day with hd | hd | hd
      · exact absurd he
          (Nat.ne_of_lt (toRD_lt_of_lex d1 d2 h1 h2 (Or.inr ⟨hy, Or.inr ⟨hm, hd⟩⟩)))
      · exact hne (by cases d1; cases d2; simp_all)
      · exact absurd he.symm
          (Nat.ne_of_lt (toRD_lt_of_lex d2 d1 h2 h1 (Or.inr ⟨hy.symm, Or.inr ⟨hm.symm, hd⟩⟩)))
    · exact absurd he.symm (Nat.ne_of_lt (toRD_lt_of_lex d2 d1 h2 h1 (Or.inr ⟨hy.symm, Or.inl hm⟩)))
  · exact absurd he.symm (Nat.ne_of_lt (toRD_lt_of_lex d2 d1 h2 h1 (Or.inl hy)))

/-- Worker for the daily date range: emit days starting at cur while not past ffin. -/
def rangoAux (ffin : Fecha) : ℕ → Fecha → List Fecha
  | 0, _ => []
  | fuel + 1, cur =>
    if toRD cur ≤ toRD ffin then cur :: rangoAux ffin fuel (nextDay cur) else []

/-- Model of the daily date range between two dates, both endpoints included. -/
def dateRange (inicio ffin : Fecha) : List Fecha :=
  rangoAux ffin (toRD ffin + 1 - toRD inicio) inicio

lemma rangoAux_spec (ffin : Fecha) :
    ∀ (fuel : ℕ) (cur : Fecha), validFecha cur → toRD ffin + 1 ≤ toRD cur + fuel →
      (∀ d, d ∈ rangoAux ffin fuel cur ↔
        validFecha d ∧ toRD cur ≤ toRD d ∧ toRD d ≤ toRD ffin) ∧
      (rangoAux ffin fuel cur).Pairwise (fun a b => toRD a < toRD b) := by
  intro fuel
  induction fuel with
  | zero =>
    intro cur hv hf
    constructor
    · intro d
      simp only [rangoAux, List.not_mem_nil, false_iff]
      rintro ⟨_, hge, hle⟩
      omega
    · simp [rangoAux]
  | succ f ih =>
    intro cur hv hf
    unfold rangoAux
    split_ifs with hle
    · have hnv := nextDay_valid cur hv
      have hnr := toRD_nextDay cur hv
      obtain ⟨ihm, ihp⟩ := ih (nextDay cur) hnv (by omega)
      constructor
      · intro d
        simp only [List.mem_cons, ihm, hnr]
        constructor
        · rintro (rfl | ⟨hdv, hge, hle2⟩)
          · exact ⟨hv, le_refl _, hle⟩
          · exact ⟨hdv, by omega, hle2⟩
        · rintro ⟨hdv, hge, hle2⟩
          rcases eq_or_lt_of_le hge with heq | hlt
          · exact Or.inl (toRD_inj d cur hdv hv heq.symm)
          · exact Or.inr ⟨hdv, by omega, hle2⟩
      · refine List.Pairwise.cons ?_ ihp
        intro d hd
        rw [ihm] at hd
        omega
    · constructor
      · intro d
        simp only [List.not_mem_nil, false_iff]
        rintro ⟨_, hge, hle2⟩
        omega
      · simp

lemma dateRange_mem (s e : Fecha) (hs : validFecha s) (hse : toRD s ≤ toRD e) :
    ∀ d, d ∈ dateRange s e ↔ validFecha d ∧ toRD s ≤ toRD d ∧ toRD d ≤ toRD e :=
  (rangoAux_spec e _ s hs (by omega)).1

lemma dateRange_pairwise (s e : Fecha) (hs : validFecha s) (hse : toRD s ≤ toRD e) :
    (dateRange s e).Pairwise (fun a b => toRD a < toRD b) :=
  (rangoAux_spec e _ s hs (by omega)).2

/-- One row of the historical record: an observed date plus weather columns.
A value of none models a NaN cell in the CSV. -/
structure Row where
  date : Fecha
  tavg : Option ℚ
  tmin : Option ℚ
  tmax : Option ℚ
  prcp : Option ℚ
  wspd : Option ℚ
  pres : Option ℚ
  wdir : Option ℚ
deriving DecidableEq, Repr

/-- The weather columns the cleaning pass iterates over, in source order. -/
def colNames : List String := ["tavg", "tmin", "tmax", "prcp", "wspd", "pres", "wdir"]

/-- Column access by name. -/
def Row.col (r : Row) (c : String) : Option ℚ :=
  match c with
  | "tavg" => r.tavg
  | "tmin" => r.tmin
  | "tmax" => r.tmax
  | "prcp" => r.prcp
  | "wspd" => r.wspd
  | "pres" => r.pres
  | "wdir" => r.wdir
  | _ => none

/-- Column update by name; unknown names leave the row unchanged. -/
def Row.setCol (r : Row) (c : String) (v : Option ℚ) : Row :=
  match c with
  | "tavg" => ⟨r.date, v, r.tmin, r.tmax, r.prcp, r.wspd, r.pres, r.wdir⟩
  | "tmin" => ⟨r.date, r.tavg, v, r.tmax, r.prcp, r.wspd, r.pres, r.wdir⟩
  | "tmax" => ⟨r.date, r.tavg, r.tmin, v, r.prcp, r.wspd, r.pres, r.wdir⟩
  | "prcp" => ⟨r.date, r.tavg, r.tmin, r.tmax, v, r.wspd, r.pres, r.wdir⟩
  | "wspd" => ⟨r.date, r.tavg, r.tmin, r.tmax, r.prcp, v, r.pres, r.wdir⟩
  | "pres" => ⟨r.date, r.tavg, r.tmin, r.tmax, r.prcp, r.wspd, v, r.wdir⟩
  | "wdir" => ⟨r.date, r.tavg, r.tmin, r.tmax, r.prcp, r.wspd, r.pres, v⟩
  | _ => r

/-- Extract a named column of the table as a list of cells. -/
def getColumn (df : List Row) (c : String) : List (Option ℚ) := df.map (fun r => r.col c)

/-- Write a list of cells back into a named column of the table. -/
def setColumn (df : List Row) (c : String) (xs : List (Option ℚ)) : List Row :=
  df.zipWith (fun r v => r.setCol c v) xs

/-- Number of null cells of one row, over the weather columns. -/
def countNullsRow (r : Row) : ℕ :=
  (colNames.filter (fun c => (r.col c).isNone)).length

/-- Total null count of the table, as computed by the isnull sum diagnostic. -/
def countNulls (df : List Row) : ℕ := (df.map countNullsRow).sum

/-- The critical columns tavg, prcp, pres are all present in the row. -/
def critOk (r : Row) : Bool := r.tavg.isSome && r.prcp.isSome && r.pres.isSome

/-- Null count restricted to the critical columns tavg, prcp, pres. -/
def countNullsCrit (df : List Row) : ℕ :=
  (df.map (fun r =>
    ((["tavg", "prcp", "pres"].filter (fun c => (r.col c).isNone))).length)).sum

/-- Indexed non-null cells of a column. -/
def idxVals (xs : List (Option ℚ)) : List (ℕ × ℚ) :=
  (List.range xs.length).filterMap (fun j => ((xs.get? j).join).map (fun v => (j, v)))

/-- Last non-null cell strictly before index i. -/
def prevSome (xs : List (Option ℚ)) (i : ℕ) : Option (ℕ × ℚ) :=
  ((idxVals xs).filter (fun p => p.1 < i)).getLast?

/-- First non-null cell strictly after index i. -/
def nextSome (xs : List (Option ℚ)) (i : ℕ) : Option (ℕ × ℚ) :=
  ((idxVals xs).filter (fun p => i < p.1)).head?

/-- Model of linear interpolation along the column, forward direction:
interior gaps take the linear interpolant between neighbours, trailing
gaps repeat the last observation, leading gaps stay null. -/
def interpolateLinear (xs : List (Option ℚ)) : List (Option ℚ) :=
  (List.range xs.length).map (fun i =>
    match (xs.get? i).join with
    | some v => some v
    | none =>
      match prevSome xs i, nextSome xs i with
      | some jv, some kv =>
        some (jv.2 + (kv.2 - jv.2) * ((i : ℚ) - (jv.1 : ℚ)) / ((kv.1 : ℚ) - (jv.1 : ℚ)))
      | some jv, none => some jv.2
      | none, _ => none)

/-- Backward fill: a null cell takes the next non-null value below it. -/
def bfill (xs : List (Option ℚ)) : List (Option ℚ) :=
  (List.range xs.length).map (fun i =>
    match (xs.get? i).join with
    | some v => some v
    | none => (nextSome xs i).map (fun p => p.2))

/-- Forward fill: a null cell takes the last non-null value above it. -/
def ffill (xs : List (Option ℚ)) : List (Option ℚ) :=
  (List.range xs.length).map (fun i =>
    match (xs.get? i).join with
    | some v => some v
    | none => (prevSome xs i).map (fun p => p.2))

/-- The per-column repair of the cleaner: interpolate, then bfill, then ffill. -/
def repararColumna (xs : List (Option ℚ)) : List (Option ℚ) :=
  ffill (bfill (interpolateLinear xs))

/-- One step of the cleaning loop: repair the column if it has any null. -/
def pasoRelleno (acc : List Row) (c : String) : List Row :=
  if (getColumn acc c).any (fun v => v.isNone) then
    setColumn acc c (repararColumna (getColumn acc c))
  else acc

/-- The imputation part of the cleaner: if the table has any null, repair
each weather column that has nulls. -/
def rellenar (df : List Row) : List Row :=
  if countNulls df > 0 then colNames.foldl pasoRelleno df else df

/-- The cleaning pass of cargar_datos_historicos: impute, then drop the
rows still null in a critical column. -/
def limpiar (df : List Row) : List Row :=
  if countNulls df > 0 then
    let d := colNames.foldl pasoRelleno df
    if countNullsCrit d > 0 then d.filter critOk else d
  else df

/-- Model of cargar_datos_historicos: none models the file-unavailable
sentinel (the function returned None); otherwise the parsed table is
cleaned by limpiar. -/
def cargar_datos_historicos (raw : Option (List Row)) : Option (List Row) :=
  raw.map limpiar

/-- The season feature of the synthesizer: (month mod 12 + 3) integer-divided by 3. -/
def season (month : ℕ) : ℕ := (month % 12 + 3) / 3

/-- The 1-based ordinal day of the year of the target date (tm_yday). -/
def dayOfYear (f : Fecha) : ℕ := daysBeforeMonth f.year f.month + f.day

/-- Day of week, 0 is Monday through 6 is Sunday (Python date.weekday). -/
def weekday (f : Fecha) : ℕ := (toRD f + 6) % 7

/-- NaN-skipping arithmetic mean of a column, as pandas mean computes it;
none when the column holds no value at all. -/
def colMean (xs : List (Option ℚ)) : Option ℚ :=
  let vals := xs.filterMap id
  if vals.isEmpty then none else some (vals.sum / (vals.length : ℚ))

/-- fillna with the column mean: null cells take the NaN-skipping mean. -/
def fillConMedia (xs : List (Option ℚ)) : List (Option ℚ) :=
  xs.map (fun v =>
    match v with
    | some a => some a
    | none => colMean xs)

/-- The candidate rows have at least one null among the weather columns. -/
def anyNull (df : List Row) : Bool :=
  df.any (fun r => colNames.any (fun c => (r.col c).isNone))

/-- A synthesized feature table: one row keyed by feature name.
A cell value of none models NaN. -/
abbrev Columnas := List (String × Option ℚ)

/-- Value of a named feature of the synthesized table (NaN when absent). -/
def getCol (v : Columnas) (c : String) : Option ℚ := (List.lookup c v).join

/-- The primary analogue set: rows of the same month whose day of month is
day-1, day or day+1 of the target date (lines 60-63 of app.py). -/
def datosSimilaresPrimarios (df_historico : List Row) (fecha : Fecha) : List Row :=
  df_historico.filter (fun r =>
    r.date.month == fecha.month &&
      (r.date.day == fecha.day - 1 || r.date.day == fecha.day || r.date.day == fecha.day + 1))

/-- The month-only fallback set (line 67 of app.py). -/
def datosMismoMes (df_historico : List Row) (fecha : Fecha) : List Row :=
  df_historico.filter (fun r => r.date.month == fecha.month)

/-- The candidate analogue set actually used: the primary set, widened to
the whole month only when the primary set is empty. -/
def datosSimilares (df_historico : List Row) (fecha : Fecha) : List Row :=
  let primarios := datosSimilaresPrimarios df_historico fecha
  if primarios.isEmpty then datosMismoMes df_historico fecha else primarios

/-- Model of preparar_datos_fecha. sinDeg and cosDeg stand for the opaque
numeric composition np.sin of np.radians (and cos), which the claims never
inspect. Returns none exactly when the code returns None (no analogue data). -/
def preparar_datos_fecha (sinDeg cosDeg : ℚ → ℚ) (df_historico : List Row)
    (fecha : Fecha) : Option Columnas :=
  let candidatos := datosSimilares df_historico fecha
  if candidatos.isEmpty then none
  else
    let base : Columnas := colNames.map (fun c =>
      let xs := candidatos.map (fun r => r.col c)
      let xs := if anyNull candidatos && xs.any (fun v => v.isNone) then fillConMedia xs else xs
      (c, colMean xs))
    let v1 : Columnas := base ++
      [("month", some (fecha.month : ℚ)), ("day_of_year", some (dayOfYear fecha : ℚ)),
       ("day_of_week", some (weekday fecha : ℚ)), ("season", some (season fecha.month : ℚ))]
    let v2 : Columnas := v1 ++ [("tavg_3d_mean", getCol v1 "tavg")]
    let v3 : Columnas := v2 ++ [("prcp_3d_sum", getCol v2 "prcp")]
    let v4 : Columnas := v3 ++ [("pres_diff", some 0)]
    let v5 : Columnas :=
      if (v4.map Prod.fst).contains "wdir" then
        v4 ++ [("wdir_sin", (getCol v4 "wdir").map sinDeg),
               ("wdir_cos", (getCol v4 "wdir").map cosDeg)]
      else v4 ++ [("wdir_sin", some 0), ("wdir_cos", some 0)]
    some v5

/-- The external classifier artifact: binary predict and probability of the
positive class, each possibly raising (modelled as Except.error). -/
structure Modelo where
  predict_proba : List (Option ℚ) → Except String ℚ
  predict : List (Option ℚ) → Except String ℕ

/-- The external scaler artifact: a transform that may raise. -/
abbrev Escalador := List (Option ℚ) → Except String (List (Option ℚ))

/-- Required features absent from the synthesized table (line 113 of app.py). -/
def missingFeatures (caracteristicas : List String) (df_datos : Columnas) : List String :=
  caracteristicas.filter (fun f => !((df_datos.map Prod.fst).contains f))

/-- Column selection in the order of the feature list (line 118 of app.py). -/
def seleccionarX (caracteristicas : List String) (df_datos : Columnas) : List (Option ℚ) :=
  caracteristicas.map (fun f => getCol df_datos f)

/-- Model of predecir_probabilidad_lluvia: reject on missing features, else
scale, predict, and return probability times 100; every raised exception is
caught and becomes the soft failure pair (none, none). -/
def predecir_probabilidad_lluvia (modelo : Modelo) (escalador : Escalador)
    (caracteristicas : List String) (df_datos : Columnas) : Option ℕ × Option ℚ :=
  let missing_features := missingFeatures caracteristicas df_datos
  if !missing_features.isEmpty then (none, none)
  else
    match (do
      let xScaled ← escalador (seleccionarX caracteristicas df_datos)
      let probabilidad ← modelo.predict_proba xScaled
      let prediccion ← modelo.predict xScaled
      Except.ok (prediccion, probabilidad) : Except String (ℕ × ℚ)) with
    | Except.ok pr => (some pr.1, some (pr.2 * 100))
    | Except.error _ => (none, none)

/-- Model of interpretar_probabilidad: the qualitative band of a probability. -/
def interpretar_probabilidad (probabilidad : Option ℚ) : String :=
  match probabilidad with
  | none => "No se pudo determinar"
  | some p =>
    if p < 20 then "Muy baja"
    else if p < 40 then "Baja"
    else if p < 60 then "Moderada"
    else if p < 80 then "Alta"
    else "Muy alta"

/-- One per-day prediction result of the range forecast. -/
structure Resultado where
  fecha : Fecha
  prediccion : String
  probabilidad : Option ℚ
  interpretacion : String
deriving DecidableEq, Repr

/-- The per-day body of the range-forecast loop (lines 151-160 of app.py). -/
def resultadoDia (sinDeg cosDeg : ℚ → ℚ) (df_historico : List Row) (modelo : Modelo)
    (escalador : Escalador) (caracteristicas : List String) (fecha : Fecha) :
    Option Resultado :=
  (preparar_datos_fecha sinDeg cosDeg df_historico fecha).map (fun df_fecha =>
    let pr := predecir_probabilidad_lluvia modelo escalador caracteristicas df_fecha
    ⟨fecha, if pr.1 == some 1 then "Lluvia" else "No lluvia",
      pr.2, interpretar_probabilidad pr.2⟩)

/-- Model of generar_pronostico_rango: one result per calendar day of the
closed date interval for which synthesis succeeded, in calendar order. -/
def generar_pronostico_rango (sinDeg cosDeg : ℚ → ℚ) (df_historico : List Row)
    (modelo : Modelo) (escalador : Escalador) (caracteristicas : List String)
    (fecha_inicio fecha_fin : Fecha) : List Resultado :=
  (dateRange fecha_inicio fecha_fin).filterMap
    (resultadoDia sinDeg cosDeg df_historico modelo escalador caracteristicas)

/-- Model of analisis_mensual: the range forecast from the first to the last
calendar day of the month. -/
def analisis_mensual (sinDeg cosDeg : ℚ → ℚ) (df_historico : List Row) (modelo : Modelo)
    (escalador : Escalador) (caracteristicas : List String) (anio mes : ℕ) : List Resultado :=
  let dias_en_mes := daysInMonth anio mes
  generar_pronostico_rango sinDeg cosDeg df_historico modelo escalador caracteristicas
    ⟨anio, mes, 1⟩ ⟨anio, mes, dias_en_mes⟩

/-- The summary block of the monthly analysis (lines 244-252 of app.py).
none models the crashes of the source at this point: an empty result list
(division by zero) or a missing probability (unformattable None). -/
structure Resumen where
  dias_lluvia : ℕ
  porcentaje : ℚ
  media : ℚ
  maxima : ℚ
  minima : ℚ
deriving DecidableEq, Repr

/-- The monthly summary statistics computed over the result list. -/
def resumen_mensual (resultados : List Resultado) : Option Resumen :=
  if resultados.any (fun r => r.probabilidad.isNone) then none
  else
    let probabilidades := resultados.filterMap (fun r => r.probabilidad)
    let dias_lluvia := (resultados.filter (fun r => r.prediccion == "Lluvia")).length
    match probabilidades with
    | [] => none
    | p :: ps =>
      some ⟨dias_lluvia, (dias_lluvia : ℚ) / (resultados.length : ℚ) * 100,
        (p :: ps).sum / ((p :: ps).length : ℚ), ps.foldl max p, ps.foldl min p⟩

/-! Helper lemmas. -/

lemma lookup_append_cols (c : String) (l1 l2 : Columnas) :
    List.lookup c (l1 ++ l2) = ((List.lookup c l1).orElse (fun _ => List.lookup c l2)) := by
  induction l1 with
  | nil => simp [List.lookup]
  | cons p t ih =>
    obtain ⟨k, b⟩ := p
    by_cases hk : c == k
    · simp [List.lookup_cons, hk]
    · have hk2 : (c == k) = false := by simpa using hk
      simp [List.lookup_cons, hk2, ih]

lemma lookup_none_of_fst (c : String) (l : Columnas) (h : c ∉ l.map Prod.fst) :
    List.lookup c l = none := by
  induction l with
  | nil => simp [List.lookup]
  | cons p t ih =>
    obtain ⟨k, b⟩ := p
    simp only [List.map_cons, List.mem_cons, not_or] at h
    have hk : (c == k) = false := by
      simp only [beq_eq_false_iff_ne, ne_eq]
      exact h.1
    simp [List.lookup_cons, hk, ih h.2]

lemma length_filterMap_of_isSome {α β : Type} (f : α → Option β) (l : List α)
    (h : ∀ a ∈ l, (f a).isSome) : (l.filterMap f).length = l.length := by
  induction l with
  | nil => simp
  | cons a t ih =>
    have ha := h a (List.mem_cons_self a t)
    obtain ⟨b, hb⟩ := Option.isSome_iff_exists.mp ha
    simp [List.filterMap_cons, hb, ih (fun x hx => h x (List.mem_cons_of_mem a hx))]

lemma foldl_max_mem (ps : List ℚ) (p : ℚ) : ps.foldl max p ∈ p :: ps := by
  induction ps generalizing p with
  | nil => simp
  | cons a t ih =>
    rw [List.foldl_cons]
    rcases List.mem_cons.mp (ih (max p a)) with h | h
    · rw [h]
      rcases max_choice p a with h2 | h2 <;> rw [h2]
      · exact List.mem_cons_self _ _
      · exact List.mem_cons_of_mem _ (List.mem_cons_self _ _)
    · exact List.mem_cons_of_mem _ (List.mem_cons_of_mem _ h)

lemma init_le_foldl_max (ps : List ℚ) (p : ℚ) : p ≤ ps.foldl max p := by
  induction ps generalizing p with
  | nil => simp
  | cons a t ih =>
    rw [List.foldl_cons]
    exact le_trans (le_max_left p a) (ih (max p a))

lemma le_foldl_max (ps : List ℚ) (p q : ℚ) (h : q ∈ p :: ps) : q ≤ ps.foldl max p := by
  induction ps generalizing p with
  | nil =>
    simp at h
    simp [h]
  | cons a t ih =>
    rw [List.foldl_cons]
    rcases List.mem_cons.mp h with rfl | h2
    · exact le_trans (le_max_left q a) (init_le_foldl_max t (max q a))
    · rcases List.mem_cons.mp h2 with rfl | h3
      · exact le_trans (le_max_right p q) (init_le_foldl_max t (max p q))
      · exact ih (max p a) (List.mem_cons_of_mem _ h3)

lemma foldl_min_mem (ps : List ℚ) (p : ℚ) : ps.foldl min p ∈ p :: ps := by
  induction ps generalizing p with
  | nil => simp
  | cons a t ih =>
    rw [List.foldl_cons]
    rcases List.mem_cons.mp (ih (min p a)) with h | h
    · rw [h]
      rcases min_choice p a with h2 | h2 <;> rw [h2]
      · exact List.mem_cons_self _ _
      · exact List.mem_cons_of_mem _ (List.mem_cons_self _ _)
    · exact List.mem_cons_of_mem _ (List.mem_cons_of_mem _ h)

lemma foldl_min_le_init (ps : List ℚ) (p : ℚ) : ps.foldl min p ≤ p := by
  induction ps generalizing p with
  | nil => simp
  | cons a t ih =>
    rw [List.foldl_cons]
    exact le_trans (ih (min p a)) (min_le_left p a)

lemma foldl_min_le (ps : List ℚ) (p q : ℚ) (h : q ∈ p :: ps) : ps.foldl min p ≤ q := by
  induction ps generalizing p with
  | nil =>
    simp at h
    simp [h]
  | cons a t ih =>
    rw [List.foldl_cons]
    rcases List.mem_cons.mp h with rfl | h2
    · exact le_trans (foldl_min_le_init t (min q a)) (min_le_left q a)
    · rcases List.mem_cons.mp h2 with rfl | h3
      · exact le_trans (foldl_min_le_init t (min p q)) (min_le_right p q)
      · exact ih (min p a) (List.mem_cons_of_mem _ h3)

/-! Claim theorems. -/

/-- C1: the primary analogue set holds exactly the historical rows whose
month matches the target and whose day of month is day-1, day or day+1
(no year constraint, no wraparound), and the widening to the whole month
is used if and only if the primary set is empty. -/
theorem C1_seleccion_analogos (df_historico : List Row) (fecha : Fecha) :
    (∀ r, r ∈ datosSimilaresPrimarios df_historico fecha ↔
      r ∈ df_historico ∧ r.date.month = fecha.month ∧
        (r.date.day = fecha.day - 1 ∨ r.date.day = fecha.day ∨ r.date.day = fecha.day + 1)) ∧
    (datosSimilaresPrimarios df_historico fecha = [] →
      datosSimilares df_historico fecha = datosMismoMes df_historico fecha) ∧
    (datosSimilaresPrimarios df_historico fecha ≠ [] →
      datosSimilares df_historico fecha = datosSimilaresPrimarios df_historico fecha) := by
  refine ⟨?_, ?_, ?_⟩
  · intro r
    simp [datosSimilaresPrimarios, List.mem_filter, and_assoc, or_assoc]
  · intro h
    unfold datosSimilares
    rw [h]
    simp
  · intro h
    unfold datosSimilares
    rw [if_neg]
    simp [List.isEmpty_iff]
    exact h

/-- C1 witness: with one historical row at 2020-05-10 and target 2024-05-11
the primary set is nonempty and is the set actually used. -/
theorem C1_witness :
    datosSimilares [⟨⟨2020, 5, 10⟩, some 10, some 8, some 12, some 2, some 3, some 1000, some 90⟩]
        ⟨2024, 5, 11⟩ =
      datosSimilaresPrimarios
        [⟨⟨2020, 5, 10⟩, some 10, some 8, some 12, some 2, some 3, some 1000, some 90⟩]
        ⟨2024, 5, 11⟩ :=
  (C1_seleccion_analogos _ _).2.2 (by decide)

/-- C3: interpretation is a pure function of the probability; an absent
probability maps to the undetermined band, each 20-wide band maps to its
text, and each boundary value 20, 40, 60, 80 falls into the upper band. -/
theorem C3_bandas_interpretacion (p : ℚ) :
    interpretar_probabilidad none = "No se pudo determinar" ∧
    (p < 20 → interpretar_probabilidad (some p) = "Muy baja") ∧
    (20 ≤ p → p < 40 → interpretar_probabilidad (some p) = "Baja") ∧
    (40 ≤ p → p < 60 → interpretar_probabilidad (some p) = "Moderada") ∧
    (60 ≤ p → p < 80 → interpretar_probabilidad (some p) = "Alta") ∧
    (80 ≤ p → interpretar_probabilidad (some p) = "Muy alta") ∧
    interpretar_probabilidad (some 20) = "Baja" ∧
    interpretar_probabilidad (some 40) = "Moderada" ∧
    interpretar_probabilidad (some 60) = "Alta" ∧
    interpretar_probabilidad (some 80) = "Muy alta" := by
  refine ⟨rfl, ?_, ?_, ?_, ?_, ?_, by decide, by decide, by decide, by decide⟩ <;>
    · intros
      simp only [interpretar_probabilidad]
      split_ifs <;> first | rfl | linarith

/-- C3 witness: probability 30 lies in the second band and maps to Baja. -/
theorem C3_witness : interpretar_probabilidad (some 30) = "Baja" :=
  (C3_bandas_interpretacion 30).2.2.1 (by norm_num) (by norm_num)

/-- C4 counterexample: the claim that months 1, 2 and 3 share a season
value is false: season 3 is 2 while season 2 is 1. -/
theorem C4_contraejemplo : ¬ (season 1 = season 2 ∧ season 2 = season 3) := by
  decide

/-- C4 amended: the formula groups December with January and February:
season agrees on months 12, 1 and 2, while month 3 starts the next band;
the exact mapping of all twelve months is as computed by the formula. -/
theorem C4_season_bandas :
    season 12 = season 1 ∧ season 1 = season 2 ∧ season 3 = season 2 + 1 ∧
    (season 1 = 1 ∧ season 2 = 1 ∧ season 3 = 2 ∧ season 4 = 2 ∧ season 5 = 2 ∧
     season 6 = 3 ∧ season 7 = 3 ∧ season 8 = 3 ∧ season 9 = 4 ∧ season 10 = 4 ∧
     season 11 = 4 ∧ season 12 = 1) := by
  decide

/-- C6: when a required feature is missing from the synthesized vector the
invoker returns the failure pair, and the result does not depend on the
scaler or the classifier: neither is consulted. -/
theorem C6_features_faltantes (modelo modelo2 : Modelo) (escalador escalador2 : Escalador)
    (caracteristicas : List String) (df_datos : Columnas)
    (h : missingFeatures caracteristicas df_datos ≠ []) :
    predecir_probabilidad_lluvia modelo escalador caracteristicas df_datos = (none, none) ∧
    predecir_probabilidad_lluvia modelo escalador caracteristicas df_datos =
      predecir_probabilidad_lluvia modelo2 escalador2 caracteristicas df_datos := by
  have hb : (missingFeatures caracteristicas df_datos).isEmpty = false :=
    List.isEmpty_eq_false.mpr h
  constructor <;> simp [predecir_probabilidad_lluvia, hb]

/-- C6 witness: a vector without the required feature x yields the failure
pair for arbitrary concrete artifacts. -/
theorem C6_witness :
    predecir_probabilidad_lluvia ⟨fun _ => Except.ok 0, fun _ => Except.ok 0⟩
      (fun x => Except.ok x) ["x"] [("tavg", some 1)] = (none, none) :=
  (C6_features_faltantes ⟨fun _ => Except.ok 0, fun _ => Except.ok 0⟩
    ⟨fun _ => Except.ok 0, fun _ => Except.ok 0⟩ (fun x => Except.ok x)
    (fun x => Except.ok x) ["x"] [("tavg", some 1)] (by decide)).1

/-- C7: with all required features present the invoker either surfaces the
classifier outputs, the probability multiplied by 100, or, if scaling or
prediction raises, returns the caught failure pair; it is a total function,
so no exception escapes. -/
theorem C7_prediccion_suave (modelo : Modelo) (escalador : Escalador)
    (caracteristicas : List String) (df_datos : Columnas)
    (h : missingFeatures caracteristicas df_datos = []) :
    (∃ xScaled p l, escalador (seleccionarX caracteristicas df_datos) = Except.ok xScaled ∧
      modelo.predict_proba xScaled = Except.ok p ∧ modelo.predict xScaled = Except.ok l ∧
      predecir_probabilidad_lluvia modelo escalador caracteristicas df_datos =
        (some l, some (p * 100))) ∨
    predecir_probabilidad_lluvia modelo escalador caracteristicas df_datos = (none, none) := by
  unfold predecir_probabilidad_lluvia
  rw [h]
  cases hs : escalador (seleccionarX caracteristicas df_datos) with
  | error e => right; simp [hs, Bind.bind, Except.bind]
  | ok xs =>
    cases hp : modelo.predict_proba xs with
    | error e => right; simp [hs, hp, Bind.bind, Except.bind]
    | ok p =>
      cases hl : modelo.predict xs with
      | error e => right; simp [hs, hp, hl, Bind.bind, Except.bind]
      | ok l =>
        left
        exact ⟨xs, p, l, rfl, hp, hl, by simp [hp, hl, Bind.bind, Except.bind]⟩

/-- C7 witness: with an empty feature list and artifacts that succeed, the
invoker returns the classifier label and the probability times 100. -/
theorem C7_witness :
    predecir_probabilidad_lluvia ⟨fun _ => Except.ok (1 / 2), fun _ => Except.ok 1⟩
        (fun x => Except.ok x) [] [("tavg", some 1)] = (some 1, some 50) := by
  rcases C7_prediccion_suave ⟨fun _ => Except.ok (1 / 2), fun _ => Except.ok 1⟩
      (fun x => Except.ok x) [] [("tavg", some 1)] (by decide) with ⟨xs, p, l, _, hp, hl, hr⟩ | hr
  · rw [hr]
    cases hp
    cases hl
    norm_num
  · exact absurd hr (by decide)

/-- C2: every synthesized vector has pres_diff exactly 0, tavg_3d_mean equal
to the synthesized tavg, and prcp_3d_sum equal to the synthesized prcp. -/
theorem C2_campos_degenerados (sinDeg cosDeg : ℚ → ℚ) (df_historico : List Row)
    (fecha : Fecha) (v : Columnas)
    (h : preparar_datos_fecha sinDeg cosDeg df_historico fecha = some v) :
    getCol v "pres_diff" = some 0 ∧
    getCol v "tavg_3d_mean" = getCol v "tavg" ∧
    getCol v "prcp_3d_sum" = getCol v "prcp" := by
  unfold preparar_datos_fecha at h
  by_cases he : (datosSimilares df_historico fecha).isEmpty = true
  · rw [if_pos he] at h
    exact absurd h (by simp)
  · rw [if_neg he] at h
    simp only [] at h
    rw [Option.some.injEq] at h
    subst h
    refine ⟨?_, ?_, ?_⟩ <;>
      · split <;>
          simp [getCol, lookup_append_cols, List.lookup, colNames, Option.orElse]

/-- A one-row sample table used by the concrete witnesses. -/
def dfEjemplo : List Row :=
  [⟨⟨2020, 5, 10⟩, some 10, some 8, some 12, some 2, some 3, some 1000, some 90⟩]

/-- The vector synthesized from the sample table for 2024-05-10 with the
trigonometric parameters fixed to the zero function. -/
def vEjemplo : Columnas :=
  [("tavg", some 10), ("tmin", some 8), ("tmax", some 12), ("prcp", some 2),
   ("wspd", some 3), ("pres", some 1000), ("wdir", some 90), ("month", some 5),
   ("day_of_year", some 131), ("day_of_week", some 4), ("season", some 2),
   ("tavg_3d_mean", some 10), ("prcp_3d_sum", some 2), ("pres_diff", some 0),
   ("wdir_sin", some 0), ("wdir_cos", some 0)]

lemma preparar_ejemplo_eval :
    preparar_datos_fecha (fun _ => 0) (fun _ => 0) dfEjemplo ⟨2024, 5, 10⟩ = some vEjemplo := by
  norm_num [preparar_datos_fecha, datosSimilares, datosSimilaresPrimarios, datosMismoMes,
    anyNull, colNames, Row.col, colMean, fillConMedia, getCol, List.lookup, dayOfYear,
    weekday, season, toRD, daysBeforeYear, daysBeforeMonth, daysInMonth, isLeapYear,
    dfEjemplo, vEjemplo, List.filter, Option.join, List.filterMap_cons, List.filterMap_nil]
  simp

/-- C2 witness: the sample synthesis succeeds and its degenerate fields are
as claimed. -/
theorem C2_witness :
    preparar_datos_fecha (fun _ => 0) (fun _ => 0) dfEjemplo ⟨2024, 5, 10⟩ = some vEjemplo ∧
    (getCol vEjemplo "pres_diff" = some 0 ∧
     getCol vEjemplo "tavg_3d_mean" = getCol vEjemplo "tavg" ∧
     getCol vEjemplo "prcp_3d_sum" = getCol vEjemplo "prcp") :=
  ⟨preparar_ejemplo_eval, C2_campos_degenerados _ _ _ _ _ preparar_ejemplo_eval⟩

lemma map_fecha_generar (sinDeg cosDeg : ℚ → ℚ) (df_historico : List Row) (modelo : Modelo)
    (escalador : Escalador) (caracteristicas : List String) (l : List Fecha) :
    ((l.filterMap
        (resultadoDia sinDeg cosDeg df_historico modelo escalador caracteristicas)).map
      (fun r => r.fecha)) =
      l.filter (fun d => (preparar_datos_fecha sinDeg cosDeg df_historico d).isSome) := by
  induction l with
  | nil => simp
  | cons a t ih =>
    rw [List.filterMap_cons, List.filter_cons]
    cases hp : preparar_datos_fecha sinDeg cosDeg df_historico a with
    | none => simp [resultadoDia, hp, ih]
    | some w => simp [resultadoDia, hp, ih]

/-- C8: with start at most end, the range forecast walks exactly the days of
the closed calendar interval in chronological order, and emits exactly one
result, carrying that day, per day whose synthesis succeeded, in the same
chronological order. -/
theorem C8_rango_fechas (sinDeg cosDeg : ℚ → ℚ) (df_historico : List Row) (modelo : Modelo)
    (escalador : Escalador) (caracteristicas : List String) (s e : Fecha)
    (hs : validFecha s) (_he : validFecha e) (hse : toRD s ≤ toRD e) :
    ((generar_pronostico_rango sinDeg cosDeg df_historico modelo escalador caracteristicas
        s e).map (fun r => r.fecha) =
      (dateRange s e).filter
        (fun d => (preparar_datos_fecha sinDeg cosDeg df_historico d).isSome)) ∧
    (∀ d, d ∈ dateRange s e ↔ validFecha d ∧ toRD s ≤ toRD d ∧ toRD d ≤ toRD e) ∧
    (generar_pronostico_rango sinDeg cosDeg df_historico modelo escalador caracteristicas
        s e).Pairwise (fun a b => toRD a.fecha < toRD b.fecha) := by
  have h1 := map_fecha_generar sinDeg cosDeg df_historico modelo escalador caracteristicas
    (dateRange s e)
  refine ⟨h1, dateRange_mem s e hs hse, ?_⟩
  have hp := List.Pairwise.sublist
    (@List.filter_sublist Fecha
      (fun d => (preparar_datos_fecha sinDeg cosDeg df_historico d).isSome) (dateRange s e))
    (dateRange_pairwise s e hs hse)
  rw [← h1, List.pairwise_map] at hp
  exact hp

/-- C8 witness: January 2 2024 lies in the three-day range of the spec
example, by the membership characterization. -/
theorem C8_witness : (⟨2024, 1, 2⟩ : Fecha) ∈ dateRange ⟨2024, 1, 1⟩ ⟨2024, 1, 3⟩ :=
  ((C8_rango_fechas (fun _ => 0) (fun _ => 0) dfEjemplo
      ⟨fun _ => Except.ok 0, fun _ => Except.ok 0⟩ (fun x => Except.ok x) []
      ⟨2024, 1, 1⟩ ⟨2024, 1, 3⟩ (by decide) (by decide) (by decide)).2.1
    ⟨2024, 1, 2⟩).mpr (by decide)

/-- C10: a day whose synthesis succeeds but whose prediction fails is still
recorded in the range forecast, labelled No lluvia with an absent
probability and the undetermined interpretation. -/
theorem C10_prediccion_fallida_registrada (sinDeg cosDeg : ℚ → ℚ) (df_historico : List Row)
    (modelo : Modelo) (escalador : Escalador) (caracteristicas : List String)
    (s e fecha : Fecha) (v : Columnas)
    (hmem : fecha ∈ dateRange s e)
    (hprep : preparar_datos_fecha sinDeg cosDeg df_historico fecha = some v)
    (hpred : predecir_probabilidad_lluvia modelo escalador caracteristicas v = (none, none)) :
    (⟨fecha, "No lluvia", none, "No se pudo determinar"⟩ : Resultado) ∈
      generar_pronostico_rango sinDeg cosDeg df_historico modelo escalador caracteristicas
        s e := by
  unfold generar_pronostico_rango
  refine List.mem_filterMap.mpr ⟨fecha, hmem, ?_⟩
  simp [resultadoDia, hprep, hpred, interpretar_probabilidad]

/-- C10 witness: with a scaler that always raises, the sample day is still
recorded as No lluvia with an absent probability. -/
theorem C10_witness :
    (⟨⟨2024, 5, 10⟩, "No lluvia", none, "No se pudo determinar"⟩ : Resultado) ∈
      generar_pronostico_rango (fun _ => 0) (fun _ => 0) dfEjemplo
        ⟨fun _ => Except.ok 0, fun _ => Except.ok 0⟩ (fun _ => Except.error "e") []
        ⟨2024, 5, 10⟩ ⟨2024, 5, 10⟩ :=
  C10_prediccion_fallida_registrada _ _ _ _ _ _ _ _ _ vEjemplo
    (by decide) preparar_ejemplo_eval (by decide)

lemma length_repararColumna (xs : List (Option ℚ)) : (repararColumna xs).length = xs.length := by
  simp [repararColumna, ffill, bfill, interpolateLinear]

lemma length_setColumn (df : List Row) (c : String) (xs : List (Option ℚ))
    (h : xs.length = df.length) : (setColumn df c xs).length = df.length := by
  simp [setColumn, List.length_zipWith, h]

lemma length_pasoRelleno (acc : List Row) (c : String) :
    (pasoRelleno acc c).length = acc.length := by
  unfold pasoRelleno
  split
  · exact length_setColumn _ _ _ (by simp [length_repararColumna, getColumn])
  · rfl

lemma length_foldl_paso (cols : List String) (acc : List Row) :
    (cols.foldl pasoRelleno acc).length = acc.length := by
  induction cols generalizing acc with
  | nil => rfl
  | cons c t ih =>
    rw [List.foldl_cons, ih]
    exact length_pasoRelleno acc c

lemma length_rellenar (df : List Row) : (rellenar df).length = df.length := by
  unfold rellenar
  split
  · exact length_foldl_paso colNames df
  · rfl

lemma isSome_of_not_isNone {o : Option ℚ} (h : ¬ (o.isNone = true)) : o.isSome := by
  cases o <;> simp_all

lemma all_cols_isSome_of_countNulls {df : List Row} (h : countNulls df = 0) :
    ∀ r ∈ df, ∀ c ∈ colNames, (r.col c).isSome := by
  intro r hr c hc
  unfold countNulls at h
  rw [List.sum_eq_zero_iff] at h
  have hrow := h (countNullsRow r) (List.mem_map_of_mem _ hr)
  unfold countNullsRow at hrow
  rw [List.length_eq_zero, List.filter_eq_nil_iff] at hrow
  exact isSome_of_not_isNone (hrow c hc)

lemma critOk_of_countNullsCrit {df : List Row} (h : countNullsCrit df = 0) :
    ∀ r ∈ df, critOk r = true := by
  intro r hr
  unfold countNullsCrit at h
  rw [List.sum_eq_zero_iff] at h
  have hrow := h _ (List.mem_map_of_mem _ hr)
  simp only [List.length_eq_zero, List.filter_eq_nil_iff] at hrow
  have ht := isSome_of_not_isNone (hrow "tavg" (by decide))
  have hp := isSome_of_not_isNone (hrow "prcp" (by decide))
  have hpr := isSome_of_not_isNone (hrow "pres" (by decide))
  simp only [Row.col] at ht hp hpr
  simp [critOk, ht, hp, hpr]

lemma limpiar_eq_filter (raw : List Row) : limpiar raw = (rellenar raw).filter critOk := by
  unfold limpiar rellenar
  by_cases h0 : countNulls raw > 0
  · rw [if_pos h0, if_pos h0]
    simp only []
    by_cases h1 : countNullsCrit (colNames.foldl pasoRelleno raw) > 0
    · rw [if_pos h1]
    · rw [if_neg h1]
      have hall := critOk_of_countNullsCrit
        (show countNullsCrit (colNames.foldl pasoRelleno raw) = 0 by omega)
      exact (List.filter_eq_self.mpr hall).symm
  · rw [if_neg h0, if_neg h0]
    have hall := all_cols_isSome_of_countNulls (show countNulls raw = 0 by omega)
    refine (List.filter_eq_self.mpr ?_).symm
    intro r hr
    have ht := hall r hr "tavg" (by decide)
    have hp := hall r hr "prcp" (by decide)
    have hpr := hall r hr "pres" (by decide)
    simp only [Row.col] at ht hp hpr
    simp [critOk, ht, hp, hpr]

/-- C9: whenever the loader succeeds, every retained row of the cleaned
table carries non-null tavg, prcp and pres; the cleaned table is exactly
the imputed table with the still-null critical rows dropped, and the
imputation itself deletes no row, so the drop is the only operation that
removes rows. -/
theorem C9_invariante_limpieza (raw df : List Row)
    (h : cargar_datos_historicos (some raw) = some df) :
    (∀ r ∈ df, r.tavg.isSome ∧ r.prcp.isSome ∧ r.pres.isSome) ∧
    df = (rellenar raw).filter critOk ∧
    (rellenar raw).length = raw.length := by
  simp only [cargar_datos_historicos, Option.map_some', Option.some.injEq] at h
  subst h
  have hfe := limpiar_eq_filter raw
  refine ⟨?_, hfe, length_rellenar raw⟩
  intro r hr
  rw [hfe] at hr
  have hc := (List.mem_filter.mp hr).2
  simp only [critOk, Bool.and_eq_true] at hc
  exact ⟨hc.1.1, hc.1.2, hc.2⟩

/-- A raw sample with one null tavg and one null pres, repairable by the
fill passes without arithmetic. -/
def rawEjemplo : List Row :=
  [⟨⟨2020, 1, 1⟩, none, some 1, some 1, some 0, some 1, some 900, none⟩,
   ⟨⟨2020, 1, 2⟩, some 4, some 1, some 1, some 0, some 1, none, none⟩]

/-- The cleaned sample: tavg backward filled, pres carried forward, the
all-null wdir column untouched, no row dropped. -/
def limpioEjemplo : List Row :=
  [⟨⟨2020, 1, 1⟩, some 4, some 1, some 1, some 0, some 1, some 900, none⟩,
   ⟨⟨2020, 1, 2⟩, some 4, some 1, some 1, some 0, some 1, some 900, none⟩]

/-- C9 witness: the sample loader run succeeds and its output is the imputed
table filtered on the critical columns. -/
theorem C9_witness :
    cargar_datos_historicos (some rawEjemplo) = some limpioEjemplo ∧
    limpioEjemplo = (rellenar rawEjemplo).filter critOk :=
  ⟨by decide, (C9_invariante_limpieza rawEjemplo limpioEjemplo (by decide)).2.1⟩

/-- C5: whenever the monthly analysis produces a summary, each reported
statistic ranges over exactly the per-day results the month aggregation
returned: the rain-day count counts the Lluvia labels among them, the
percentage divides by their number, the mean divides their probability sum
by their number, and the extrema are attained members bounding them all. -/
theorem C5_resumen_sobre_resultados (sinDeg cosDeg : ℚ → ℚ) (df_historico : List Row)
    (modelo : Modelo) (escalador : Escalador) (caracteristicas : List String)
    (anio mes : ℕ) (rs : List Resultado) (s : Resumen)
    (_hrs : rs = analisis_mensual sinDeg cosDeg df_historico modelo escalador caracteristicas
      anio mes)
    (h : resumen_mensual rs = some s) :
    s.dias_lluvia = (rs.filter (fun r => r.prediccion == "Lluvia")).length ∧
    s.porcentaje = (s.dias_lluvia : ℚ) / (rs.length : ℚ) * 100 ∧
    s.media = (rs.filterMap (fun r => r.probabilidad)).sum / (rs.length : ℚ) ∧
    s.maxima ∈ rs.filterMap (fun r => r.probabilidad) ∧
    (∀ q ∈ rs.filterMap (fun r => r.probabilidad), q ≤ s.maxima) ∧
    s.minima ∈ rs.filterMap (fun r => r.probabilidad) ∧
    (∀ q ∈ rs.filterMap (fun r => r.probabilidad), s.minima ≤ q) := by
  unfold resumen_mensual at h
  by_cases hn : (rs.any fun r => r.probabilidad.isNone) = true
  · rw [if_pos hn] at h
    exact absurd h (by simp)
  · rw [if_neg hn] at h
    simp only [] at h
    have hlen : (rs.filterMap (fun r => r.probabilidad)).length = rs.length := by
      refine length_filterMap_of_isSome _ _ ?_
      intro a ha
      rw [List.any_eq_true] at hn
      push_neg at hn
      have ha2 := hn a ha
      exact isSome_of_not_isNone (by simpa using ha2)
    cases hm : rs.filterMap (fun r => r.probabilidad) with
    | nil =>
      rw [hm] at h
      exact absurd h (by simp)
    | cons p ps =>
      rw [hm] at h hlen
      simp only [Option.some.injEq] at h
      subst h
      refine ⟨rfl, rfl, ?_, ?_, ?_, ?_, ?_⟩
      · show (p :: ps).sum / (((p :: ps).length : ℕ) : ℚ) =
          (p :: ps).sum / ((rs.length : ℕ) : ℚ)
        rw [hlen]
      · exact foldl_max_mem ps p
      · intro q hq
        exact le_foldl_max ps p q hq
      · exact foldl_min_mem ps p
      · intro q hq
        exact foldl_min_le ps p q hq


/-- A one-row February sample table for the monthly witness. -/
def dfFebrero : List Row :=
  [⟨⟨2021, 2, 15⟩, some 10, some 8, some 12, some 2, some 3, some 1000, some 90⟩]

/-- The model artifacts of the monthly witness: scaling is the identity, the
probability of rain is one half and the predicted label is 1. -/
def modeloEjemplo : Modelo := ⟨fun _ => Except.ok (1 / 2), fun _ => Except.ok 1⟩

lemma predecir_const_eval (v : Columnas) :
    predecir_probabilidad_lluvia modeloEjemplo (fun x => Except.ok x) [] v =
      (some 1, some 50) := by
  norm_num [predecir_probabilidad_lluvia, modeloEjemplo, missingFeatures, seleccionarX,
    Bind.bind, Except.bind]

lemma preparar_feb_isSome (d : Fecha) (hd : d.month = 2) :
    ∃ v, preparar_datos_fecha (fun _ => 0) (fun _ => 0) dfFebrero d = some v := by
  unfold preparar_datos_fecha
  have hne : (datosSimilares dfFebrero d).isEmpty = false := by
    unfold datosSimilares
    simp only []
    split_ifs with h
    · simp [datosMismoMes, dfFebrero, hd]
    · simpa using h
  rw [if_neg (by simp [hne])]
  exact ⟨_, rfl⟩

lemma resultadoDia_feb (d : Fecha) (hd : d.month = 2) :
    resultadoDia (fun _ => 0) (fun _ => 0) dfFebrero modeloEjemplo (fun x => Except.ok x) []
        d = some ⟨d, "Lluvia", some 50, "Moderada"⟩ := by
  obtain ⟨v, hv⟩ := preparar_feb_isSome d hd
  norm_num [resultadoDia, hv, predecir_const_eval, interpretar_probabilidad]

/-- The per-day results of the February 2023 monthly witness. -/
def resultadosFebrero : List Resultado :=
  [⟨⟨2023, 2, 1⟩, "Lluvia", some 50, "Moderada"⟩,
   ⟨⟨2023, 2, 2⟩, "Lluvia", some 50, "Moderada"⟩,
   ⟨⟨2023, 2, 3⟩, "Lluvia", some 50, "Moderada"⟩,
   ⟨⟨2023, 2, 4⟩, "Lluvia", some 50, "Moderada"⟩,
   ⟨⟨2023, 2, 5⟩, "Lluvia", some 50, "Moderada"⟩,
   ⟨⟨2023, 2, 6⟩, "Lluvia", some 50, "Moderada"⟩,
   ⟨⟨2023, 2, 7⟩, "Lluvia", some 50, "Moderada"⟩,
   ⟨⟨2023, 2, 8⟩, "Lluvia", some 50, "Moderada"⟩,
   ⟨⟨2023, 2, 9⟩, "Lluvia", some 50, "Moderada"⟩,
   ⟨⟨2023, 2, 10⟩, "Lluvia", some 50, "Moderada"⟩,
   ⟨⟨2023, 2, 11⟩, "Lluvia", some 50, "Moderada"⟩,
   ⟨⟨2023, 2, 12⟩, "Lluvia", some 50, "Moderada"⟩,
   ⟨⟨2023, 2, 13⟩, "Lluvia", some 50, "Moderada"⟩,
   ⟨⟨2023, 2, 14⟩, "Lluvia", some 50, "Moderada"⟩,
   ⟨⟨2023, 2, 15⟩, "Lluvia", some 50, "Moderada"⟩,
   ⟨⟨2023, 2, 16⟩, "Lluvia", some 50, "Moderada"⟩,
   ⟨⟨2023, 2, 17⟩, "Lluvia", some 50, "Moderada"⟩,
   ⟨⟨2023, 2, 18⟩, "Lluvia", some 50, "Moderada"⟩,
   ⟨⟨2023, 2, 19⟩, "Lluvia", some 50, "Moderada"⟩,
   ⟨⟨2023, 2, 20⟩, "Lluvia", some 50, "Moderada"⟩,
   ⟨⟨2023, 2, 21⟩, "Lluvia", some 50, "Moderada"⟩,
   ⟨⟨2023, 2, 22⟩, "Lluvia", some 50, "Moderada"⟩,
   ⟨⟨2023, 2, 23⟩, "Lluvia", some 50, "Moderada"⟩,
   ⟨⟨2023, 2, 24⟩, "Lluvia", some 50, "Moderada"⟩,
   ⟨⟨2023, 2, 25⟩, "Lluvia", some 50, "Moderada"⟩,
   ⟨⟨2023, 2, 26⟩, "Lluvia", some 50, "Moderada"⟩,
   ⟨⟨2023, 2, 27⟩, "Lluvia", some 50, "Moderada"⟩,
   ⟨⟨2023, 2, 28⟩, "Lluvia", some 50, "Moderada"⟩]

lemma analisis_feb_eval :
    analisis_mensual (fun _ => 0) (fun _ => 0) dfFebrero modeloEjemplo
        (fun x => Except.ok x) [] 2023 2 = resultadosFebrero := by
  have hdr : dateRange ⟨2023, 2, 1⟩ ⟨2023, 2, 28⟩ =
      [⟨2023, 2, 1⟩, ⟨2023, 2, 2⟩, ⟨2023, 2, 3⟩, ⟨2023, 2, 4⟩, ⟨2023, 2, 5⟩, ⟨2023, 2, 6⟩, ⟨2023, 2, 7⟩, ⟨2023, 2, 8⟩, ⟨2023, 2, 9⟩, ⟨2023, 2, 10⟩, ⟨2023, 2, 11⟩, ⟨2023, 2, 12⟩, ⟨2023, 2, 13⟩, ⟨2023, 2, 14⟩, ⟨2023, 2, 15⟩, ⟨2023, 2, 16⟩, ⟨2023, 2, 17⟩, ⟨2023, 2, 18⟩, ⟨2023, 2, 19⟩, ⟨2023, 2, 20⟩, ⟨2023, 2, 21⟩, ⟨2023, 2, 22⟩, ⟨2023, 2, 23⟩, ⟨2023, 2, 24⟩, ⟨2023, 2, 25⟩, ⟨2023, 2, 26⟩, ⟨2023, 2, 27⟩, ⟨2023, 2, 28⟩] := by decide
  have hdim : daysInMonth 2023 2 = 28 := by decide
  unfold analisis_mensual generar_pronostico_rango
  simp only []
  rw [hdim, hdr]
  simp [List.filterMap_cons, resultadoDia_feb, resultadosFebrero]

lemma resumen_feb_eval :
    resumen_mensual (analisis_mensual (fun _ => 0) (fun _ => 0) dfFebrero modeloEjemplo
        (fun x => Except.ok x) [] 2023 2) = some ⟨28, 100, 50, 50, 50⟩ := by
  rw [analisis_feb_eval]
  norm_num [resumen_mensual, resultadosFebrero, List.filterMap_cons, List.filterMap_nil]

/-- C5 witness: the February 2023 sample summary exists and its rain-day
count is the count of Lluvia labels among the returned results. -/
theorem C5_witness :
    resumen_mensual (analisis_mensual (fun _ => 0) (fun _ => 0) dfFebrero modeloEjemplo
        (fun x => Except.ok x) [] 2023 2) = some ⟨28, 100, 50, 50, 50⟩ ∧
    (28 : ℕ) = ((analisis_mensual (fun _ => 0) (fun _ => 0) dfFebrero modeloEjemplo
        (fun x => Except.ok x) [] 2023 2).filter
      (fun r => r.prediccion == "Lluvia")).length :=
  ⟨resumen_feb_eval,
    (C5_resumen_sobre_resultados _ _ _ _ _ _ 2023 2 _ _ rfl resumen_feb_eval).1⟩
